import Mathlib

/-!
Verification of the `font-forge-tool` glyph-encoding and lookup-rule
synthesis engine (files `src/ffir.rs`, `src/main.rs`).  The Rust code is
shallowly embedded: structs become structures, enums become inductives,
`&mut usize` counters become explicit state passing, and panicking code
returns `Except String` (a Rust `panic!()` with no arguments carries the
fixed payload "explicit panic").
-/

namespace NasinNanpa

/-- Prefix test on character lists (used to embed Rust `str::contains`). -/
def listIsPre : List Char → List Char → Bool
  | [], _ => true
  | _ :: _, [] => false
  | a :: as, b :: bs => a == b && listIsPre as bs

/-- Infix test on character lists. -/
def listIsInf (pat : List Char) : List Char → Bool
  | [] => pat.isEmpty
  | s@(_ :: rest) => listIsPre pat s || listIsInf pat rest

/-- Embeds Rust `str::contains` (substring containment). -/
def strContains (s pat : String) : Bool :=
  listIsInf pat.data s.data

/-- Embeds the Rust format specifier `{i:04}`: decimal, left-padded with
zeros to at least four digits. -/
def pad4 (n : Nat) : String :=
  let s := toString n
  if s.length < 4 then String.mk (List.replicate (4 - s.length) '0') ++ s else s

/-- Embeds Rust `str::starts_with`. -/
def strStartsWith (s pat : String) : Bool :=
  listIsPre pat.data s.data

/-- Scan for the first occurrence of `sep`, returning the (reversed)
characters before it and the characters after it. -/
def splitOnceAux (sep : Char) : List Char → List Char → Option (List Char × List Char)
  | _, [] => Option.none
  | acc, c :: rest =>
      if c == sep then Option.some (acc.reverse, rest)
      else splitOnceAux sep (c :: acc) rest

/-- Embeds Rust `str::split_once` on a one-character separator (every split
in the source is on `'_'` or `"_"`). -/
def splitOnce (s : String) (sep : Char) : Option (String × String) :=
  match splitOnceAux sep [] s.data with
  | Option.some p => Option.some (String.mk p.1, String.mk p.2)
  | Option.none => Option.none

/-- Embeds Rust `str::rsplit_once` on a one-character separator (split at
the last occurrence). -/
def rsplitOnce (s : String) (sep : Char) : Option (String × String) :=
  match splitOnceAux sep [] s.data.reverse with
  | Option.some p => Option.some (String.mk p.2.reverse, String.mk p.1.reverse)
  | Option.none => Option.none

/-- Embeds Rust `str::split(sep).collect::<Vec<_>>()` on a one-character
separator (empty pieces preserved, as in Rust). -/
def splitAll (sep : Char) : List Char → List Char → List String
  | acc, [] => [String.mk acc.reverse]
  | acc, c :: rest =>
      if c == sep then String.mk acc.reverse :: splitAll sep [] rest
      else splitAll sep (c :: acc) rest

/-- Embeds Rust `Option::unwrap`, which panics on `None`. -/
def rustUnwrap : Option α → Except String α
  | Option.some a => Except.ok a
  | Option.none => Except.error "called Option::unwrap() on a None value"

/-- Embeds Rust slice indexing `v[i]`, which panics out of bounds. -/
def rustVecGet (v : List α) (i : Nat) : Except String α :=
  match v.get? i with
  | Option.some a => Except.ok a
  | Option.none =>
      Except.error ("index out of bounds: the len is " ++ toString v.length ++
        " but the index is " ++ toString i)

/-- Embeds Rust `panic!()` with no arguments. -/
def rustPanic : Except String α := Except.error "explicit panic"

/-- main.rs: `enum NasinNanpaVariation { Main, Ucsur }`. -/
inductive NasinNanpaVariation where
  | Main
  | Ucsur
deriving DecidableEq

/-- ffir.rs: `enum EncPos { Pos(usize), None }`. -/
inductive EncPos where
  | Pos (p : Nat)
  | None
deriving DecidableEq

/-- ffir.rs: `EncPos::inc` (the `&mut self` update, modelled functionally). -/
def EncPos.inc : EncPos → EncPos
  | EncPos.Pos p => EncPos.Pos (p + 1)
  | EncPos.None => EncPos.None

/-- ffir.rs: `EncPos::gen`. -/
def EncPos.gen : EncPos → String
  | EncPos.Pos p => toString p
  | EncPos.None => "-1"

/-- ffir.rs: `struct Encoding { ff_pos: usize, enc_pos: EncPos }`. -/
structure Encoding where
  ff_pos : Nat
  enc_pos : EncPos
deriving DecidableEq

/-- ffir.rs: `Encoding::gen`. -/
def Encoding.gen (e : Encoding) : String :=
  "Encoding: " ++ toString e.ff_pos ++ " " ++ e.enc_pos.gen ++ " " ++ toString e.ff_pos

/-- ffir.rs: `Encoding::gen_ref`. -/
def Encoding.gen_ref (e : Encoding) (position : String) : String :=
  "Refer: " ++ toString e.ff_pos ++ " " ++ e.enc_pos.gen ++ " " ++ position

/-- ffir.rs: `struct Ref { ref_glyph: Encoding, position: String }`. -/
structure Ref where
  ref_glyph : Encoding
  position : String
deriving DecidableEq

/-- ffir.rs: `Ref::gen`. -/
def Ref.gen (r : Ref) : String :=
  r.ref_glyph.gen_ref r.position

/-- ffir.rs: `struct Rep { spline_set: String, references: Vec<Ref> }`. -/
structure Rep where
  spline_set : String
  references : List Ref
deriving DecidableEq

/-- ffir.rs: `Rep::gen`. -/
def Rep.gen (rep : Rep) : String :=
  let f := if !rep.spline_set.isEmpty || !rep.references.isEmpty then "Fore\n" else ""
  let r := String.intercalate "\n" (rep.references.map Ref.gen)
  let nl := if !rep.references.isEmpty then "\n" else ""
  let s :=
    if !rep.spline_set.isEmpty then "SplineSet" ++ rep.spline_set ++ "\nEndSplineSet\n"
    else ""
  f ++ r ++ nl ++ s

/-- ffir.rs: `enum AnchorClass { Stack, Scale }`. -/
inductive AnchorClass where
  | Stack
  | Scale
deriving DecidableEq

/-- ffir.rs: `enum AnchorType { Base, Mark }`. -/
inductive AnchorType where
  | Base
  | Mark
deriving DecidableEq

/-- ffir.rs: `struct Anchor { class, ty, pos }`. -/
structure Anchor where
  class' : AnchorClass
  ty : AnchorType
  pos : Int × Int
deriving DecidableEq

/-- ffir.rs: `Anchor::new_stack`. -/
def Anchor.new_stack (ty : AnchorType) : Anchor :=
  { class' := AnchorClass.Stack, ty := ty,
    pos := (match ty with | AnchorType.Base => 500 | AnchorType.Mark => -500, 400) }

/-- ffir.rs: `Anchor::new_scale`. -/
def Anchor.new_scale (ty : AnchorType) (pos : Int × Int) : Anchor :=
  { class' := AnchorClass.Scale, ty := ty, pos := pos }

/-- ffir.rs: `Anchor::gen`. -/
def Anchor.gen (a : Anchor) : String :=
  let class' := match a.class' with
    | AnchorClass.Stack => "stack"
    | AnchorClass.Scale => "scale"
  let x := a.pos.1
  let y := a.pos.2
  let ty := match a.ty with
    | AnchorType.Base => "basechar"
    | AnchorType.Mark => "mark"
  "AnchorPoint: \"" ++ class' ++ "\" " ++ toString x ++ " " ++ toString y ++ " " ++ ty ++ " 0\n"

/-- ffir.rs: `struct GlyphBasic { name, width, rep, anchor }`. -/
structure GlyphBasic where
  name : String
  width : Nat
  rep : Rep
  anchor : Option Anchor
deriving DecidableEq

/-- ffir.rs: `struct GlyphEnc { glyph: GlyphBasic, enc: EncPos }`. -/
structure GlyphEnc where
  glyph : GlyphBasic
  enc : EncPos
deriving DecidableEq

/-- ffir.rs: `GlyphEnc::new_from_parts`. -/
def GlyphEnc.new_from_parts (enc : EncPos) (name : String) (width : Nat) (rep : Rep) :
    GlyphEnc :=
  { glyph := { name := name, width := width, rep := rep, anchor := Option.none }, enc := enc }

/-- ffir.rs: `enum LookupsMode` (the per-block lookup policy). -/
inductive LookupsMode where
  | WordLigFromLetters
  | WordLigManual (words : List String)
  | StartLongGlyph
  | Alt
  | ComboFirst
  | ComboLast
  | None

/-- ffir.rs: `enum Lookups` (the per-glyph resolved lookup value). -/
inductive Lookups where
  | WordLigFromLetters
  | WordLigManual (word : String)
  | StartLongGlyph
  | EndLongGlyph
  | Alt
  | ComboFirst
  | ComboLast
  | None
deriving DecidableEq

/-- ffir.rs: `Lookups::new_from_mode`.  The Rust `vec[idx]` would panic out of
bounds; every call site uses a vector whose length equals the glyph count, so
the out-of-bounds case (modelled as the empty string, hence `None`) is never
reached. -/
def Lookups.new_from_mode (mode : LookupsMode) (idx : Nat) : Lookups :=
  match mode with
  | LookupsMode.WordLigFromLetters => Lookups.WordLigFromLetters
  | LookupsMode.WordLigManual vec =>
      let s := vec.getD idx ""
      if s.length > 0 then Lookups.WordLigManual s else Lookups.None
  | LookupsMode.StartLongGlyph => Lookups.StartLongGlyph
  | LookupsMode.Alt => Lookups.Alt
  | LookupsMode.ComboFirst => Lookups.ComboFirst
  | LookupsMode.ComboLast => Lookups.ComboLast
  | LookupsMode.None => Lookups.None

/-- ffir.rs, `Lookups::gen`, the `convert` closure of the `arrow` special case
(`panic!()` on a direction character outside W/N/E/S). -/
def convert (c : Char) : Except String String :=
  if c == 'W' then Except.ok "less"
  else if c == 'N' then Except.ok "asciicircum"
  else if c == 'E' then Except.ok "greater"
  else if c == 'S' then Except.ok "v"
  else rustPanic

/-- ffir.rs, `Lookups::gen`, Alt branch: the selector-suffix table.  The same
8-entry `match` (with `panic!()` default) appears verbatim twice in the
source, once for `num_lig` and once for `sel_word` inside `rerand`. -/
def selWord (sel : String) : Except String String :=
  if sel == "VAR01" || sel == "arrowW" then Except.ok "one"
  else if sel == "VAR02" || sel == "arrowN" then Except.ok "two"
  else if sel == "VAR03" || sel == "arrowE" then Except.ok "three"
  else if sel == "VAR04" || sel == "arrowS" then Except.ok "four"
  else if sel == "VAR05" || sel == "arrowNW" then Except.ok "five"
  else if sel == "VAR06" || sel == "arrowNE" then Except.ok "six"
  else if sel == "VAR07" || sel == "arrowSE" then Except.ok "seven"
  else if sel == "VAR08" || sel == "arrowSW" then Except.ok "eight"
  else rustPanic

/-- ffir.rs, `Lookups::gen`, `WordLigFromLetters` branch. -/
def lettersGen (name full_name : String) : String :=
  let lig := String.intercalate " " (name.data.map (fun c => String.mk [c]))
  let ali :=
    if full_name == "aleTok" then
      "Ligature2: \"'liga' WORD PLUS SPACE\" a l i space\nLigature2: \"'liga' WORD\" a l i\n"
    else ""
  "Ligature2: \"'liga' WORD PLUS SPACE\" " ++ lig ++ " space\nLigature2: \"'liga' WORD\" " ++
    lig ++ "\n" ++ ali

/-- ffir.rs, `Lookups::gen`, `WordLigManual` branch (the `always` pair with
its `do_it` flag, then the Main-variant-only `latin` rule). -/
def manualGen (word name : String) (variation : NasinNanpaVariation) :
    Except String String := do
  let ad : String × Bool :=
    if strContains word "middleDotTok" then
      ("Ligature2: \"'liga' VAR\" " ++ word ++ "\n", false)
    else if strContains word "CartAlt" then
      let which := if strContains word "start" then "startCart" else "endCart"
      ("Ligature2: \"'liga' VAR\" " ++ which ++ "Tok VAR01\n", true)
    else if name == "ZWJ" then
      ("Substitution2: \"'ss02' BECOME STACK\" joinStackTok\nSubstitution2: \"'ss01' BECOME SCALE\" joinScaleTok\n",
        true)
    else if word == "i t a n" then
      ("Ligature2: \"'liga' VAR\" ijoTok ZWJ tanTok ZWJ anpaTok ZWJ nanpaTok\n", true)
    else if word == "l e p e k a" then
      ("Ligature2: \"'liga' VAR\" meliTok ZWJ kuleTok ZWJ kuleTok\n", true)
    else ("", true)
  let always := ad.1
  let do_it := ad.2
  let latin ←
    if variation == NasinNanpaVariation.Main && do_it then
      if word == "space space" then
        Except.ok ("Ligature2: \"'liga' SPACE\" " ++ word ++
          "\nLigature2: \"'liga' SPACE\" z z space\nLigature2: \"'liga' SPACE\" z z\n")
      else if word == "arrow" then do
        let c1 ← rustUnwrap (name.data.get? 5)
        let dir1 ← convert c1
        match name.data.get? 6 with
        | Option.some c2 => do
            let dir2 ← convert c2
            Except.ok ("Ligature2: \"'liga' WORD PLUS SPACE\" " ++ dir1 ++ " " ++ dir2 ++
              " space\nLigature2: \"'liga' WORD PLUS SPACE\" " ++ dir2 ++ " " ++ dir1 ++
              " space\nLigature2: \"'liga' WORD\" " ++ dir1 ++ " " ++ dir2 ++
              "\nLigature2: \"'liga' WORD\" " ++ dir2 ++ " " ++ dir1 ++ "\n")
        | Option.none =>
            Except.ok ("Ligature2: \"'liga' WORD PLUS SPACE\" " ++ dir1 ++
              " space\nLigature2: \"'liga' WORD\" " ++ dir1 ++ "\n")
      else if word == "bar" then
        Except.ok "Ligature2: \"'liga' WORD PLUS SPACE\" bar space\nLigature2: \"'liga' WORD\" bar\n"
      else if strContains word "CartAlt" then
        let which := if strContains word "start" then "startCart" else "endCart"
        Except.ok ("Ligature2: \"'liga' VAR PLUS SPACE\" " ++ which ++
          "Tok VAR01 space\nLigature2: \"'liga' VAR PLUS SPACE\" " ++ which ++
          "Tok one space\nLigature2: \"'liga' VAR\" " ++ which ++
          "Tok VAR01\nLigature2: \"'liga' VAR\" " ++ which ++ "Tok one\n")
      else
        Except.ok ("Ligature2: \"'liga' WORD PLUS SPACE\" " ++ word ++
          " space\nLigature2: \"'liga' WORD\" " ++ word ++ "\n")
    else Except.ok ""
  Except.ok (always ++ latin)

/-- ffir.rs, `Lookups::gen`, Alt branch: one `rerand` iteration body for the
`jakiTok`/`koTok` cross-product family (Main variant, four rules). -/
def rerandMainLine (tok : String) (n : Nat) (selS sel_word : String) : String :=
  "Ligature2: \"'liga' VAR PLUS SPACE\" " ++ tok ++ "_VAR0" ++ toString n ++ " VAR0" ++
    selS ++ " space\nLigature2: \"'liga' VAR PLUS SPACE\" " ++ tok ++ "_VAR0" ++
    toString n ++ " " ++ sel_word ++ " space\nLigature2: \"'liga' VAR\" " ++ tok ++
    "_VAR0" ++ toString n ++ " VAR0" ++ selS ++ "\nLigature2: \"'liga' VAR\" " ++ tok ++
    "_VAR0" ++ toString n ++ " " ++ sel_word ++ "\n"

/-- ffir.rs, `Lookups::gen`, Alt branch: one `rerand` iteration body for the
non-Main variant (one rule). -/
def rerandUcsurLine (tok : String) (n : Nat) (selS : String) : String :=
  "Ligature2: \"'liga' VAR\" " ++ tok ++ "_VAR0" ++ toString n ++ " VAR0" ++ selS ++ "\n"

/-- ffir.rs, `Lookups::gen`, `Alt` branch. -/
def altGen (full_name : String) (variation : NasinNanpaVariation) :
    Except String String := do
  let parts := splitAll '_' [] full_name.data
  let glyph := parts.getD 0 ""
  let sel ← rustVecGet parts 1
  let a :=
    if full_name == "aTok_VAR01" then
      "Ligature2: \"'liga' VAR\" semeTok ZWJ aTok\nLigature2: \"'liga' VAR\" aTok ZWJ semeTok\n"
    else if full_name == "aTok_VAR02" then
      "Ligature2: \"'liga' VAR\" aTok aTok\n"
    else if full_name == "aTok_VAR03" then
      "Ligature2: \"'liga' VAR\" aTok aTok aTok\n"
    else if full_name == "aTok_VAR04" && variation == NasinNanpaVariation.Main then
      "Ligature2: \"'liga' VAR PLUS SPACE\" exclam question space\nLigature2: \"'liga' VAR PLUS SPACE\" question exclam space\nLigature2: \"'liga' VAR\" exclam question\nLigature2: \"'liga' VAR\" question exclam\n"
    else ""
  let arrow_lig :=
    if strContains full_name "niTok_arrow" then
      "Ligature2: \"'liga' VAR\" " ++ glyph ++ " ZWJ " ++ sel ++ "\n"
    else ""
  let num_lig ←
    if variation == NasinNanpaVariation.Main then do
      let w ← selWord sel
      Except.ok ("Ligature2: \"'liga' VAR PLUS SPACE\" " ++ glyph ++ " " ++ w ++
        " space\nLigature2: \"'liga' VAR\" " ++ glyph ++ " " ++ w ++ "\n")
    else Except.ok ""
  let rerand ← do
    let sel_word ← selWord sel
    let lastC ← rustUnwrap sel.data.getLast?
    let selS := String.mk [lastC]
    if strStartsWith full_name "jakiTok" then
      if variation == NasinNanpaVariation.Main then
        Except.ok (String.join ((List.range' 1 8).map
          (fun n => rerandMainLine "jakiTok" n selS sel_word)))
      else
        Except.ok (String.join ((List.range' 1 8).map
          (fun n => rerandUcsurLine "jakiTok" n selS)))
    else if strStartsWith full_name "koTok" then
      if variation == NasinNanpaVariation.Main then
        Except.ok (String.join ((List.range' 1 8).map
          (fun n => rerandMainLine "koTok" n selS sel_word)))
      else
        Except.ok (String.join ((List.range' 1 8).map
          (fun n => rerandUcsurLine "koTok" n selS)))
    else Except.ok ""
  let if_main :=
    if variation == NasinNanpaVariation.Main then
      "Ligature2: \"'liga' VAR PLUS SPACE\" " ++ glyph ++ " " ++ sel ++ " space\n"
    else ""
  Except.ok (a ++ if_main ++ "Ligature2: \"'liga' VAR\" " ++ glyph ++ " " ++ sel ++ "\n" ++
    arrow_lig ++ num_lig ++ rerand)

/-- ffir.rs, `Lookups::gen`: one iteration body of the `rand` block's
`rerand` for the Main variant. -/
def randMainLine (tok : String) (n : Nat) : String :=
  "Ligature2: \"'liga' VAR PLUS SPACE\" " ++ tok ++ "_VAR0" ++ toString n ++
    " VAR09 space\nLigature2: \"'liga' VAR PLUS SPACE\" " ++ tok ++ "_VAR0" ++
    toString n ++ " nine space\nLigature2: \"'liga' VAR\" " ++ tok ++ "_VAR0" ++
    toString n ++ " VAR09\nLigature2: \"'liga' VAR\" " ++ tok ++ "_VAR0" ++
    toString n ++ " nine\n"

/-- ffir.rs, `Lookups::gen`: one iteration body of the `rand` block's
`rerand` for the non-Main variant. -/
def randUcsurLine (tok : String) (n : Nat) : String :=
  "Ligature2: \"'liga' VAR\" " ++ tok ++ "_VAR0" ++ toString n ++ " VAR09\n"

/-- ffir.rs, `Lookups::gen`: the trailing `rand` block (the `jakiTok` /
`koTok` random-alternate rules appended after every branch). -/
def randPart (full_name : String) (variation : NasinNanpaVariation) : String :=
  if full_name == "jakiTok" then
    (if variation == NasinNanpaVariation.Main then
      String.join ((List.range' 1 8).map (randMainLine "jakiTok"))
    else
      String.join ((List.range' 1 8).map (randUcsurLine "jakiTok"))) ++
    "AlternateSubs2: \"'rand' RAND VARIATIONS\" jakiTok_VAR01 jakiTok_VAR02 jakiTok_VAR03 jakiTok_VAR04 jakiTok_VAR05 jakiTok_VAR06 jakiTok_VAR07 jakiTok_VAR08\n"
  else if full_name == "koTok" then
    (if variation == NasinNanpaVariation.Main then
      String.join ((List.range' 1 8).map (randMainLine "koTok"))
    else
      String.join ((List.range' 1 8).map (randUcsurLine "koTok"))) ++
    "AlternateSubs2: \"'rand' RAND VARIATIONS\" koTok_VAR01 koTok_VAR02 koTok_VAR03 koTok_VAR04 koTok_VAR05 koTok_VAR06 koTok_VAR07 koTok_VAR08\n"
  else ""

/-- ffir.rs: `Lookups::gen`. -/
def Lookups.gen (l : Lookups) (name full_name : String)
    (variation : NasinNanpaVariation) : Except String String := do
  let latin_ligs ←
    match l with
    | Lookups.WordLigFromLetters => Except.ok (lettersGen name full_name)
    | Lookups.WordLigManual word => manualGen word name variation
    | Lookups.StartLongGlyph => do
        let gj ← rustUnwrap (rsplitOnce full_name '_')
        Except.ok ("Ligature2: \"'liga' START CONTAINER\" " ++ gj.1 ++ " " ++ gj.2 ++ "\n")
    | Lookups.EndLongGlyph => do
        let gj ← rustUnwrap (splitOnce full_name '_')
        Except.ok ("Ligature2: \"'liga' START CONTAINER\" endRevLongGlyphTok " ++ gj.1 ++ "\n")
    | Lookups.Alt => altGen full_name variation
    | Lookups.ComboFirst => do
        let gj ← rustUnwrap (rsplitOnce full_name '_')
        Except.ok ("Ligature2: \"'liga' GLYPH THEN JOINER\" " ++ gj.1 ++ " " ++ gj.2 ++
          "\nMultipleSubs2: \"'ccmp' RESPAWN JOINER\" " ++ full_name ++ " " ++ gj.2 ++ "\n")
    | Lookups.ComboLast => do
        let gj ← rustUnwrap (splitOnce full_name '_')
        Except.ok ("Ligature2: \"'liga' JOINER THEN GLYPH\" " ++ gj.1 ++ " " ++ gj.2 ++
          "\nLigature2: \"'liga' CC CLEANUP\" combCartExtHalfTok " ++ full_name ++
          "\nLigature2: \"'liga' CC CLEANUP\" combLongGlyphExtHalfTok " ++ full_name ++
          "\nLigature2: \"'liga' CC CLEANUP\" combCartExtTok " ++ full_name ++
          "\nLigature2: \"'liga' CC CLEANUP\" combLongGlyphExtTok " ++ full_name ++ "\n")
    | Lookups.None => Except.ok ""
  Except.ok (latin_ligs ++ randPart full_name variation)

/-- ffir.rs: `enum Cc { Full, Half, Participant, None }`. -/
inductive Cc where
  | Full
  | Half
  | Participant
  | None
deriving DecidableEq

/-- ffir.rs: `struct GlyphFull { glyph, encoding, lookups, cc_subs }`. -/
structure GlyphFull where
  glyph : GlyphBasic
  encoding : Encoding
  lookups : Lookups
  cc_subs : Cc
deriving DecidableEq

/-- ffir.rs: `GlyphFull::gen`.  Fallible because `Lookups::gen` can panic. -/
def GlyphFull.gen (g : GlyphFull) (pre suffix color : String)
    (variation : NasinNanpaVariation) : Except String String := do
  let name := g.glyph.name
  let encoding := g.encoding.gen
  let colorLine := "Colour: " ++ color
  if strContains name "empty" then
    Except.ok ("\nStartChar: " ++ name ++ "\n" ++ encoding ++
      "\nWidth: 0\nLayerCount: 2\n" ++ colorLine ++ "\nEndChar\n")
  else
    let full_name := pre ++ name ++ suffix
    let width := g.glyph.width
    let representation := g.glyph.rep.gen
    let lookups ← g.lookups.gen name full_name variation
    let cc_subs :=
      match g.cc_subs with
      | Cc.Full =>
          "MultipleSubs2: \"'cc01' CART\" " ++ full_name ++
          " combCartExtTok\nMultipleSubs2: \"'cc02' CONT\" " ++ full_name ++
          " combLongGlyphExtTok\n"
      | Cc.Half =>
          "MultipleSubs2: \"'cc01' CART\" " ++ full_name ++
          " combCartExtHalfTok\nMultipleSubs2: \"'cc02' CONT\" " ++ full_name ++
          " combLongGlyphExtHalfTok\n"
      | Cc.Participant =>
          "MultipleSubs2: \"'cc01' CART\" " ++ full_name ++
          " combCartExtNoneTok\nMultipleSubs2: \"'cc02' CONT\" " ++ full_name ++
          " combCartExtNoneTok\n"
      | Cc.None => ""
    let flags :=
      if full_name == "ZWJ" || full_name == "ZWNJ" || strStartsWith full_name "VAR" ||
          strStartsWith full_name "arrow" || full_name == "joinStackTok" ||
          full_name == "joinScaleTok" || strContains full_name "space" ||
          full_name == "combCartExtNoneTok" then
        "Flags: W\n"
      else ""
    let anchor :=
      match g.glyph.anchor with
      | Option.some a => a.gen
      | Option.none => ""
    Except.ok ("\nStartChar: " ++ full_name ++ "\n" ++ encoding ++ "\nWidth: " ++
      toString width ++ "\n" ++ flags ++ anchor ++ "LayerCount: 2\n" ++ representation ++
      lookups ++ cc_subs ++ colorLine ++ "\nEndChar\n")

/-- ffir.rs: `struct GlyphDescriptor { name, spline_set, width, anchor }`. -/
structure GlyphDescriptor where
  name : String
  spline_set : String
  width : Option Nat
  anchor : Option Anchor

/-- ffir.rs: `struct GlyphBlock { glyphs, prefix, suffix, color }` (the Rust
field `prefix` is a Lean keyword and is named `pre` here). -/
structure GlyphBlock where
  glyphs : List GlyphFull
  pre : String
  suffix : String
  color : String

/-- ffir.rs: `GlyphBlock::new_empty`.  The `&mut usize` counter is passed in
and the advanced counter is returned alongside the block. -/
def GlyphBlock.new_empty (ff_pos count width : Nat) : GlyphBlock × Nat :=
  ({ glyphs := (List.range count).map (fun i =>
      { glyph := { name := "empty" ++ pad4 (ff_pos + i), width := width,
                   rep := { spline_set := "", references := [] }, anchor := Option.none },
        encoding := { ff_pos := ff_pos + i, enc_pos := EncPos.None },
        lookups := Lookups.None, cc_subs := Cc.None }),
     pre := "", suffix := "", color := "dddddd" }, ff_pos + count)

/-- ffir.rs, `GlyphBlock::new_from_basic_glyphs`: the enumerated map that
builds one `GlyphFull` per requested glyph, advancing the fontforge counter
and the encoding position once per glyph.  Returns the glyph list together
with the final counter and encoding position. -/
def layoutBasic (mode : LookupsMode) (cc : Cc) :
    Nat → EncPos → Nat → List GlyphBasic → List GlyphFull × Nat × EncPos
  | ff, enc, _, [] => ([], ff, enc)
  | ff, enc, idx, g :: rest =>
      let gf : GlyphFull :=
        { glyph := g, encoding := { ff_pos := ff, enc_pos := enc },
          lookups := Lookups.new_from_mode mode idx, cc_subs := cc }
      let r := layoutBasic mode cc (ff + 1) enc.inc (idx + 1) rest
      (gf :: r.1, r.2)

/-- ffir.rs: `GlyphBlock::new_from_basic_glyphs`. -/
def GlyphBlock.new_from_basic_glyphs (ff_pos : Nat) (glyphs : List GlyphBasic)
    (lookups : LookupsMode) (cc_subs : Cc) (pre suffix color : String)
    (enc_pos : EncPos) : GlyphBlock × Nat :=
  let m := layoutBasic lookups cc_subs ff_pos enc_pos 0 glyphs
  let p := GlyphBlock.new_empty m.2.1 (15 - ((m.1.length + 15) % 16)) 0
  ({ glyphs := m.1 ++ p.1.glyphs, pre := pre, suffix := suffix, color := color }, p.2)

/-- ffir.rs, `GlyphBlock::new_from_enc_glyphs`: the enumerated map (each
glyph carries its own `EncPos`). -/
def layoutEnc (mode : LookupsMode) (cc : Cc) :
    Nat → Nat → List GlyphEnc → List GlyphFull × Nat
  | ff, _, [] => ([], ff)
  | ff, idx, g :: rest =>
      let gf : GlyphFull :=
        { glyph := g.glyph, encoding := { ff_pos := ff, enc_pos := g.enc },
          lookups := Lookups.new_from_mode mode idx, cc_subs := cc }
      let r := layoutEnc mode cc (ff + 1) (idx + 1) rest
      (gf :: r.1, r.2)

/-- ffir.rs: `GlyphBlock::new_from_enc_glyphs`. -/
def GlyphBlock.new_from_enc_glyphs (ff_pos : Nat) (glyphs : List GlyphEnc)
    (lookups : LookupsMode) (cc_subs : Cc) (pre suffix color : String) :
    GlyphBlock × Nat :=
  let m := layoutEnc lookups cc_subs ff_pos 0 glyphs
  let p := GlyphBlock.new_empty m.2 (15 - ((m.1.length + 15) % 16)) 0
  ({ glyphs := m.1 ++ p.1.glyphs, pre := pre, suffix := suffix, color := color }, p.2)

/-- ffir.rs: `GlyphBlock::new_from_constants`. -/
def GlyphBlock.new_from_constants (ff_pos : Nat) (glyphs : List GlyphDescriptor)
    (lookups : LookupsMode) (cc_subs : Cc) (pre suffix color : String)
    (enc_pos : EncPos) (fallback_width : Nat) : GlyphBlock × Nat :=
  let basics := glyphs.map (fun d =>
    { name := d.name, width := d.width.getD fallback_width,
      rep := { spline_set := d.spline_set, references := [] },
      anchor := d.anchor : GlyphBasic })
  GlyphBlock.new_from_basic_glyphs ff_pos basics lookups cc_subs pre suffix color enc_pos

/-- ffir.rs: `GlyphBlock::new_from_refs` (the Rust
`vec![Some(r), None].flatten()` is the one-element reference list). -/
def GlyphBlock.new_from_refs (self : GlyphBlock) (ff_pos : Nat) (rel_pos : String)
    (lookups : LookupsMode) (cc_subs : Cc) (use_full_names : Bool)
    (pre suffix color : String) (width : Option Nat) (anchor : Option Anchor) :
    GlyphBlock × Nat :=
  let basics := self.glyphs.map (fun gf =>
    let refs : List Ref := [{ ref_glyph := gf.encoding, position := rel_pos }]
    let nm :=
      if use_full_names then self.pre ++ gf.glyph.name ++ self.suffix
      else gf.glyph.name
    { name := nm,
      width := match width with | Option.some w => w | Option.none => gf.glyph.width,
      rep := { spline_set := "", references := refs },
      anchor := match anchor with
                | Option.some a => Option.some a
                | Option.none => gf.glyph.anchor : GlyphBasic })
  GlyphBlock.new_from_basic_glyphs ff_pos basics lookups cc_subs pre suffix color
    EncPos.None

/-- main.rs, `gen_nasin_nanpa`: one block-construction call of the run,
abstracted over the constant descriptor data (the `glyph_blocks` descriptor
tables are opaque constants supplied to the engine).  `fromRefs i` refers to
the `i`-th previously built block, as `GlyphBlock::new_from_refs` reads an
already-laid-out block. -/
inductive BlockSpec where
  | fromEnc (glyphs : List GlyphEnc) (lookups : LookupsMode) (cc : Cc)
      (pre suffix color : String)
  | fromBasic (glyphs : List GlyphBasic) (lookups : LookupsMode) (cc : Cc)
      (pre suffix color : String) (enc : EncPos)
  | fromConstants (glyphs : List GlyphDescriptor) (lookups : LookupsMode) (cc : Cc)
      (pre suffix color : String) (enc : EncPos) (fallback : Nat)
  | fromRefs (src : Nat) (rel : String) (lookups : LookupsMode) (cc : Cc)
      (useFullNames : Bool) (pre suffix color : String) (width : Option Nat)
      (anchor : Option Anchor)
  | empty (count width : Nat)

/-- Executes one block-construction call against the counter and the blocks
built so far. -/
def buildStep (built : List GlyphBlock) (ff : Nat) : BlockSpec → GlyphBlock × Nat
  | BlockSpec.fromEnc g l c p s col => GlyphBlock.new_from_enc_glyphs ff g l c p s col
  | BlockSpec.fromBasic g l c p s col e =>
      GlyphBlock.new_from_basic_glyphs ff g l c p s col e
  | BlockSpec.fromConstants g l c p s col e w =>
      GlyphBlock.new_from_constants ff g l c p s col e w
  | BlockSpec.fromRefs i rel l c u p s col w a =>
      GlyphBlock.new_from_refs (built.getD i { glyphs := [], pre := "", suffix := "", color := "" })
        ff rel l c u p s col w a
  | BlockSpec.empty n w => GlyphBlock.new_empty ff n w

/-- main.rs, `gen_nasin_nanpa`: the whole run — every block construction in
declaration order, threading the single `ff_pos` counter, starting from the
given counter value and accumulated block list (the run starts at `0`, `[]`). -/
def buildRun : Nat → List GlyphBlock → List BlockSpec → List GlyphBlock × Nat
  | ff, built, [] => (built, ff)
  | ff, built, s :: rest =>
      let r := buildStep built ff s
      buildRun r.2 (built ++ [r.1]) rest

/-- The glyph records of a run, in document emission order (main.rs emits
`meta_block` — every block, in construction order — concatenated). -/
def allGlyphs (blocks : List GlyphBlock) : List GlyphFull :=
  (blocks.map GlyphBlock.glyphs).flatten

/-- main.rs, `gen_nasin_nanpa`: the `BeginChars: {ff_pos} {ff_pos}` header
line of the emitted document (the final counter, deliberately repeated). -/
def beginCharsLine (ff_pos : Nat) : String :=
  "BeginChars: " ++ toString ff_pos ++ " " ++ toString ff_pos

/-- main.rs, `gen_nasin_nanpa` (`context_subs`): the `scale_glyphs` set —
every non-filler glyph name (undecorated) of the outer blocks.  The Rust
`HashSet` is used only through `contains`, so a list with `List.contains`
models it. -/
def scaleGlyphSet (blocks : List GlyphBlock) : List String :=
  (blocks.map (fun block =>
    block.glyphs.filterMap (fun glyph =>
      if strContains glyph.glyph.name "empty" then Option.none
      else Option.some glyph.glyph.name))).flatten

/-- main.rs, `gen_nasin_nanpa` (`context_subs`): the per-block emitted stack
class entries — non-filler, non-arrow names not in the scale set, decorated
with "Tok" for every block except the third (`i != 2`). -/
def stackEntries (scale : List String) (blocks : List GlyphBlock) :
    List (List String) :=
  blocks.enum.map (fun p =>
    p.2.glyphs.filterMap (fun glyph =>
      if strContains glyph.glyph.name "empty" || strContains glyph.glyph.name "arrow" ||
          scale.contains glyph.glyph.name then
        Option.none
      else
        Option.some (glyph.glyph.name ++ (if p.1 != 2 then "Tok" else ""))))

/-- main.rs, `gen_nasin_nanpa` (`context_subs`): the stack class body — the
per-block entries joined by single spaces (itertools `join(" ")` twice). -/
def stackNames (scale : List String) (blocks : List GlyphBlock) : String :=
  String.intercalate " " ((stackEntries scale blocks).map (String.intercalate " "))

/-- The undecorated selection underlying `stackEntries`: which lower-block
glyph names pass the stack filter (before the "Tok" decoration). -/
def stackSelected (scale : List String) (blocks : List GlyphBlock) :
    List (List String) :=
  blocks.map (fun block =>
    block.glyphs.filterMap (fun glyph =>
      if strContains glyph.glyph.name "empty" || strContains glyph.glyph.name "arrow" ||
          scale.contains glyph.glyph.name then
        Option.none
      else Option.some glyph.glyph.name))

/-- A default `GlyphFull` used only as the `List.getD` fallback when a
theorem indexes into a block whose length it has already pinned down. -/
def fallbackGlyph : GlyphFull :=
  { glyph := { name := "", width := 0, rep := { spline_set := "", references := [] },
               anchor := Option.none },
    encoding := { ff_pos := 0, enc_pos := EncPos.None },
    lookups := Lookups.None, cc_subs := Cc.None }

/-- The internal (fontforge) positions of `gs` are contiguous and strictly
increasing starting at `start`: the `k`-th record carries position
`start + k`. -/
def contig (gs : List GlyphFull) (start : Nat) : Prop :=
  ∀ k (h : k < gs.length), (gs.get ⟨k, h⟩).encoding.ff_pos = start + k

/-- A resolved glyph carrying only a name (concrete test data for the
classification theorems). -/
def namedGlyph (name : String) : GlyphFull :=
  { glyph := { name := name, width := 0, rep := { spline_set := "", references := [] },
               anchor := Option.none },
    encoding := { ff_pos := 0, enc_pos := EncPos.None },
    lookups := Lookups.None, cc_subs := Cc.None }

/-! ## Layout lemmas -/

theorem layoutBasic_fst_length (m : LookupsMode) (cc : Cc) :
    ∀ (gs : List GlyphBasic) (ff : Nat) (e : EncPos) (i : Nat),
      (layoutBasic m cc ff e i gs).1.length = gs.length := by
  intro gs
  induction gs with
  | nil => intro ff e i; rfl
  | cons g rest ih => intro ff e i; simp [layoutBasic, ih]

theorem layoutBasic_counter (m : LookupsMode) (cc : Cc) :
    ∀ (gs : List GlyphBasic) (ff : Nat) (e : EncPos) (i : Nat),
      (layoutBasic m cc ff e i gs).2.1 = ff + gs.length := by
  intro gs
  induction gs with
  | nil => intro ff e i; simp [layoutBasic]
  | cons g rest ih => intro ff e i; simp [layoutBasic, ih]; omega

theorem layoutEnc_fst_length (m : LookupsMode) (cc : Cc) :
    ∀ (gs : List GlyphEnc) (ff : Nat) (i : Nat),
      (layoutEnc m cc ff i gs).1.length = gs.length := by
  intro gs
  induction gs with
  | nil => intro ff i; rfl
  | cons g rest ih => intro ff i; simp [layoutEnc, ih]

theorem layoutEnc_counter (m : LookupsMode) (cc : Cc) :
    ∀ (gs : List GlyphEnc) (ff : Nat) (i : Nat),
      (layoutEnc m cc ff i gs).2 = ff + gs.length := by
  intro gs
  induction gs with
  | nil => intro ff i; simp [layoutEnc]
  | cons g rest ih => intro ff i; simp [layoutEnc, ih]; omega

theorem new_empty_length (ff n w : Nat) :
    (GlyphBlock.new_empty ff n w).1.glyphs.length = n := by
  simp [GlyphBlock.new_empty]

theorem new_from_basic_glyphs_length (ff : Nat) (gs : List GlyphBasic)
    (m : LookupsMode) (cc : Cc) (pre suffix color : String) (e : EncPos) :
    (GlyphBlock.new_from_basic_glyphs ff gs m cc pre suffix color e).1.glyphs.length =
      gs.length + (15 - ((gs.length + 15) % 16)) := by
  simp [GlyphBlock.new_from_basic_glyphs, new_empty_length, layoutBasic_fst_length,
    GlyphBlock.new_empty]

theorem new_from_enc_glyphs_length (ff : Nat) (gs : List GlyphEnc)
    (m : LookupsMode) (cc : Cc) (pre suffix color : String) :
    (GlyphBlock.new_from_enc_glyphs ff gs m cc pre suffix color).1.glyphs.length =
      gs.length + (15 - ((gs.length + 15) % 16)) := by
  simp [GlyphBlock.new_from_enc_glyphs, new_empty_length, layoutEnc_fst_length,
    GlyphBlock.new_empty]

theorem new_from_constants_length (ff : Nat) (gs : List GlyphDescriptor)
    (m : LookupsMode) (cc : Cc) (pre suffix color : String) (e : EncPos) (fw : Nat) :
    (GlyphBlock.new_from_constants ff gs m cc pre suffix color e fw).1.glyphs.length =
      gs.length + (15 - ((gs.length + 15) % 16)) := by
  simp [GlyphBlock.new_from_constants, new_from_basic_glyphs_length]

theorem new_from_refs_length (b : GlyphBlock) (ff : Nat) (rel : String)
    (m : LookupsMode) (cc : Cc) (u : Bool) (pre suffix color : String)
    (w : Option Nat) (a : Option Anchor) :
    (GlyphBlock.new_from_refs b ff rel m cc u pre suffix color w a).1.glyphs.length =
      b.glyphs.length + (15 - ((b.glyphs.length + 15) % 16)) := by
  simp [GlyphBlock.new_from_refs, new_from_basic_glyphs_length]

/-! ## Claim theorems -/

/-- C1: for every block construction with `n` requested glyphs the layout
engine appends exactly `15 − ((n + 15) mod 16)` filler glyphs, a number in
`[0, 15]`, making the emitted glyph count the smallest multiple of 16 at or
above `n` (in particular a multiple of 16); checked for all four padding
constructors, and concretely at `n ∈ {0, 1, 15, 16, 17, 31, 32}`. -/
theorem block_padding_aligns_to_16 :
    (∀ (ff : Nat) (gs : List GlyphBasic) (m : LookupsMode) (cc : Cc)
        (pre suffix color : String) (e : EncPos),
      (GlyphBlock.new_from_basic_glyphs ff gs m cc pre suffix color e).1.glyphs.length =
          gs.length + (15 - ((gs.length + 15) % 16)) ∧
        15 - ((gs.length + 15) % 16) ≤ 15 ∧
        (GlyphBlock.new_from_basic_glyphs ff gs m cc pre suffix color e).1.glyphs.length %
            16 = 0 ∧
        gs.length ≤
          (GlyphBlock.new_from_basic_glyphs ff gs m cc pre suffix color e).1.glyphs.length ∧
        (∀ k, gs.length ≤ k → k % 16 = 0 →
          (GlyphBlock.new_from_basic_glyphs ff gs m cc pre suffix color e).1.glyphs.length
            ≤ k)) ∧
    (∀ (ff : Nat) (gs : List GlyphEnc) (m : LookupsMode) (cc : Cc)
        (pre suffix color : String),
      (GlyphBlock.new_from_enc_glyphs ff gs m cc pre suffix color).1.glyphs.length =
          gs.length + (15 - ((gs.length + 15) % 16)) ∧
        (GlyphBlock.new_from_enc_glyphs ff gs m cc pre suffix color).1.glyphs.length %
          16 = 0) ∧
    (∀ (ff : Nat) (gs : List GlyphDescriptor) (m : LookupsMode) (cc : Cc)
        (pre suffix color : String) (e : EncPos) (fw : Nat),
      (GlyphBlock.new_from_constants ff gs m cc pre suffix color e fw).1.glyphs.length =
          gs.length + (15 - ((gs.length + 15) % 16)) ∧
        (GlyphBlock.new_from_constants ff gs m cc pre suffix color e fw).1.glyphs.length %
          16 = 0) ∧
    (∀ (b : GlyphBlock) (ff : Nat) (rel : String) (m : LookupsMode) (cc : Cc)
        (u : Bool) (pre suffix color : String) (w : Option Nat) (a : Option Anchor),
      (GlyphBlock.new_from_refs b ff rel m cc u pre suffix color w a).1.glyphs.length =
          b.glyphs.length + (15 - ((b.glyphs.length + 15) % 16)) ∧
        (GlyphBlock.new_from_refs b ff rel m cc u pre suffix color w a).1.glyphs.length %
          16 = 0) ∧
    (([0, 1, 15, 16, 17, 31, 32] : List Nat).all
      (fun n => (n + (15 - ((n + 15) % 16))) % 16 == 0 &&
        (15 - ((n + 15) % 16)) ≤ 15)) = true := by
  refine ⟨?_, ?_, ?_, ?_, by decide⟩
  · intro ff gs m cc pre suffix color e
    rw [new_from_basic_glyphs_length]
    refine ⟨rfl, by omega, by omega, by omega, ?_⟩
    intro k hk hk16
    omega
  · intro ff gs m cc pre suffix color
    rw [new_from_enc_glyphs_length]
    exact ⟨rfl, by omega⟩
  · intro ff gs m cc pre suffix color e fw
    rw [new_from_constants_length]
    exact ⟨rfl, by omega⟩
  · intro b ff rel m cc u pre suffix color w a
    rw [new_from_refs_length]
    exact ⟨rfl, by omega⟩

/-- C1 witness: the concrete instance `n = 17` of the minimality conjunct. -/
theorem block_padding_aligns_to_16_witness :
    (GlyphBlock.new_from_basic_glyphs 0
        (List.replicate 17
          { name := "g", width := 0, rep := { spline_set := "", references := [] },
            anchor := Option.none })
        LookupsMode.None Cc.None "" "" "" EncPos.None).1.glyphs.length ≤ 32 :=
  (block_padding_aligns_to_16.1 0
    (List.replicate 17
      { name := "g", width := 0, rep := { spline_set := "", references := [] },
        anchor := Option.none })
    LookupsMode.None Cc.None "" "" "" EncPos.None).2.2.2.2 32 (by decide) (by decide)

/-- C2 counterexample: a block built from 16 requested glyphs has 16 glyphs,
not 16 + 16 as the claim states (the padding formula yields 0 fillers at an
exact multiple of 16). -/
theorem sixteen_glyph_block_not_padded_by_16 :
    ¬ ((GlyphBlock.new_from_basic_glyphs 0
        (List.replicate 16
          { name := "g", width := 0, rep := { spline_set := "", references := [] },
            anchor := Option.none })
        LookupsMode.None Cc.None "" "" "" EncPos.None).1.glyphs.length = 16 + 16) := by
  rw [new_from_basic_glyphs_length]
  decide

/-- C2 (amended): when the number `n` of requested glyphs is an exact
multiple of 16, block construction appends zero filler glyphs, so the
resulting block has exactly `n` glyphs. -/
theorem multiple_of_16_block_gets_no_filler (ff : Nat) (gs : List GlyphBasic)
    (m : LookupsMode) (cc : Cc) (pre suffix color : String) (e : EncPos)
    (h : gs.length % 16 = 0) :
    (GlyphBlock.new_from_basic_glyphs ff gs m cc pre suffix color e).1.glyphs.length =
      gs.length := by
  rw [new_from_basic_glyphs_length]
  omega

/-- C2 (amended) witness: the 16-glyph instance. -/
theorem multiple_of_16_block_gets_no_filler_witness :
    (GlyphBlock.new_from_basic_glyphs 0
        (List.replicate 16
          { name := "g", width := 0, rep := { spline_set := "", references := [] },
            anchor := Option.none })
        LookupsMode.None Cc.None "" "" "" EncPos.None).1.glyphs.length =
      (List.replicate 16
        ({ name := "g", width := 0, rep := { spline_set := "", references := [] },
           anchor := Option.none } : GlyphBasic)).length :=
  multiple_of_16_block_gets_no_filler 0 _ LookupsMode.None Cc.None "" "" "" EncPos.None
    (by decide)

/-- C8: `EncPos` rendering and advancing: the unencoded position renders as
the literal "-1" and is fixed by `inc`; a concrete position `p` renders as
`p`'s decimal string and advances to `p + 1`. -/
theorem encpos_render_advance (p : Nat) :
    EncPos.gen (EncPos.Pos p) = toString p ∧
    EncPos.gen EncPos.None = "-1" ∧
    EncPos.inc (EncPos.Pos p) = EncPos.Pos (p + 1) ∧
    EncPos.inc EncPos.None = EncPos.None ∧
    EncPos.gen (EncPos.Pos 0) = "0" ∧
    EncPos.gen (EncPos.Pos 987542) = "987542" ∧
    EncPos.gen (EncPos.inc (EncPos.Pos 0xF1990)) = "989585" :=
  ⟨rfl, rfl, rfl, rfl, rfl, rfl, rfl⟩

/-- C10: a fully-resolved glyph whose stored name contains "empty" renders as
the fixed filler record — bare name, encoding line, `Width: 0`,
`LayerCount: 2`, colour — ignoring its stored width, representation, anchor,
lookups, combining class, and the block prefix and suffix. -/
theorem empty_name_renders_as_filler (name : String) (width : Nat) (rep : Rep)
    (anchor : Option Anchor) (enc : Encoding) (lk : Lookups) (cc : Cc)
    (pre suffix color : String) (variation : NasinNanpaVariation)
    (h : strContains name "empty" = true) :
    GlyphFull.gen
        { glyph := { name := name, width := width, rep := rep, anchor := anchor },
          encoding := enc, lookups := lk, cc_subs := cc } pre suffix color variation =
      Except.ok ("\nStartChar: " ++ name ++ "\n" ++ enc.gen ++
        "\nWidth: 0\nLayerCount: 2\nColour: " ++ color ++ "\nEndChar\n") := by
  simp [GlyphFull.gen, h]
  rw [show ("\nWidth: 0\nLayerCount: 2\nColour: " : String) =
    "\nWidth: 0\nLayerCount: 2\n" ++ "Colour: " from rfl]
  simp only [String.append_assoc]

/-- C10 witness: a glyph named "empty0007" with junk content renders as the
filler record. -/
theorem empty_name_renders_as_filler_witness :
    GlyphFull.gen
        { glyph := { name := "empty0007", width := 321,
                     rep := { spline_set := "junk", references := [] },
                     anchor := Option.some (Anchor.new_stack AnchorType.Base) },
          encoding := { ff_pos := 7, enc_pos := EncPos.Pos 12 },
          lookups := Lookups.Alt, cc_subs := Cc.Full } "pre" "suf" "abcdef"
        NasinNanpaVariation.Main =
      Except.ok ("\nStartChar: " ++ "empty0007" ++ "\n" ++
        Encoding.gen { ff_pos := 7, enc_pos := EncPos.Pos 12 } ++
        "\nWidth: 0\nLayerCount: 2\nColour: " ++ "abcdef" ++ "\nEndChar\n") :=
  empty_name_renders_as_filler "empty0007" 321
    { spline_set := "junk", references := [] }
    (Option.some (Anchor.new_stack AnchorType.Base))
    { ff_pos := 7, enc_pos := EncPos.Pos 12 } Lookups.Alt Cc.Full "pre" "suf" "abcdef"
    NasinNanpaVariation.Main (by decide)

/-- C7: `Rep::gen` — both parts empty renders the empty string (no
foreground-layer marker); a reference-only representation renders as the
marker followed by the reference clauses in list order, with no
outline-wrapper markers; in general a non-empty representation emits the
marker, then the references, then the wrapped outline (only when non-empty),
references always before the outline. -/
theorem rep_render_cases (spline : String) (refs : List Ref) :
    (spline = "" → refs = [] →
      Rep.gen { spline_set := spline, references := refs } = "") ∧
    (refs ≠ [] →
      Rep.gen { spline_set := "", references := refs } =
        "Fore\n" ++ String.intercalate "\n" (refs.map Ref.gen) ++ "\n") ∧
    (¬(spline = "" ∧ refs = []) →
      Rep.gen { spline_set := spline, references := refs } =
        "Fore\n" ++ String.intercalate "\n" (refs.map Ref.gen) ++
          (if refs = [] then "" else "\n") ++
          (if spline = "" then ""
           else "SplineSet" ++ spline ++ "\nEndSplineSet\n")) := by
  refine ⟨?_, ?_, ?_⟩
  · rintro rfl rfl; rfl
  · intro h
    cases refs with
    | nil => exact absurd rfl h
    | cons a l =>
        simp [Rep.gen, show ("" : String).isEmpty = true from rfl, String.append_empty]
  · intro h
    by_cases hs : spline = ""
    · subst hs
      cases refs with
      | nil => exact absurd ⟨rfl, rfl⟩ h
      | cons a l =>
          simp [Rep.gen, show ("" : String).isEmpty = true from rfl, String.append_empty]
    · have hs' : spline.isEmpty = false := by
        cases heq : spline.isEmpty
        · rfl
        · exact absurd ((String.isEmpty_iff spline).mp heq) hs
      cases refs with
      | nil => simp [Rep.gen, hs', hs, String.append_empty, String.empty_append]
      | cons a l => simp [Rep.gen, hs', hs]

/-- C7 witness: a reference-only representation with two references. -/
theorem rep_render_cases_witness :
    Rep.gen { spline_set := "",
              references := [{ ref_glyph := { ff_pos := 3, enc_pos := EncPos.Pos 9 },
                               position := "N 1 0 0 1 0 0 2" },
                             { ref_glyph := { ff_pos := 5, enc_pos := EncPos.None },
                               position := "S 2 0 0 2 0 0 2" }] } =
      "Fore\n" ++
        String.intercalate "\n"
          (([{ ref_glyph := { ff_pos := 3, enc_pos := EncPos.Pos 9 },
               position := "N 1 0 0 1 0 0 2" },
             { ref_glyph := { ff_pos := 5, enc_pos := EncPos.None },
               position := "S 2 0 0 2 0 0 2" }] : List Ref).map Ref.gen) ++ "\n" :=
  (rep_render_cases ""
    [{ ref_glyph := { ff_pos := 3, enc_pos := EncPos.Pos 9 },
       position := "N 1 0 0 1 0 0 2" },
     { ref_glyph := { ff_pos := 5, enc_pos := EncPos.None },
       position := "S 2 0 0 2 0 0 2" }]).2.1 (by simp)

/-- C4: the two-descriptor block `[a, b]` laid out with the manual-ligature
policy `["x", ""]` (internal positions starting at 0) has exactly 16 glyphs
(2 real + 14 filler); glyph "a" resolves to the manual lookup "x", whose
Main-variant rule text contains "x"; glyph "b" resolves to the `None` lookup
(empty manual string) and emits no rules; and each of the 14 filler glyphs
has width 0, empty outline, no references, no external encoding, and name
`empty` followed by its own zero-padded four-digit internal position. -/
theorem two_glyph_manual_block :
    (GlyphBlock.new_from_constants 0
        [{ name := "a", spline_set := "outlineA", width := Option.none,
           anchor := Option.none },
         { name := "b", spline_set := "outlineB", width := Option.none,
           anchor := Option.none }]
        (LookupsMode.WordLigManual ["x", ""]) Cc.Full "" "" "cccfff" EncPos.None
        1000).1.glyphs.length = 16 ∧
    ((GlyphBlock.new_from_constants 0
        [{ name := "a", spline_set := "outlineA", width := Option.none,
           anchor := Option.none },
         { name := "b", spline_set := "outlineB", width := Option.none,
           anchor := Option.none }]
        (LookupsMode.WordLigManual ["x", ""]) Cc.Full "" "" "cccfff" EncPos.None
        1000).1.glyphs.getD 0 fallbackGlyph).lookups = Lookups.WordLigManual "x" ∧
    Lookups.gen (Lookups.WordLigManual "x") "a" "a" NasinNanpaVariation.Main =
      Except.ok
        "Ligature2: \"'liga' WORD PLUS SPACE\" x space\nLigature2: \"'liga' WORD\" x\n" ∧
    strContains
      "Ligature2: \"'liga' WORD PLUS SPACE\" x space\nLigature2: \"'liga' WORD\" x\n"
      "x" = true ∧
    ((GlyphBlock.new_from_constants 0
        [{ name := "a", spline_set := "outlineA", width := Option.none,
           anchor := Option.none },
         { name := "b", spline_set := "outlineB", width := Option.none,
           anchor := Option.none }]
        (LookupsMode.WordLigManual ["x", ""]) Cc.Full "" "" "cccfff" EncPos.None
        1000).1.glyphs.getD 1 fallbackGlyph).lookups = Lookups.None ∧
    Lookups.gen Lookups.None "b" "b" NasinNanpaVariation.Main = Except.ok "" ∧
    ((List.range 14).all (fun j =>
      let g := (GlyphBlock.new_from_constants 0
        [{ name := "a", spline_set := "outlineA", width := Option.none,
           anchor := Option.none },
         { name := "b", spline_set := "outlineB", width := Option.none,
           anchor := Option.none }]
        (LookupsMode.WordLigManual ["x", ""]) Cc.Full "" "" "cccfff" EncPos.None
        1000).1.glyphs.getD (2 + j) fallbackGlyph
      g.glyph.width == 0 &&
        g.glyph.rep == { spline_set := "", references := [] } &&
        g.encoding.enc_pos == EncPos.None &&
        g.encoding.ff_pos == 2 + j &&
        g.glyph.name == "empty" ++ pad4 g.encoding.ff_pos)) = true := by
  refine ⟨by decide, by decide, by rfl, by decide, by decide, by rfl, by decide⟩

set_option maxRecDepth 1000000 in
/-- C5: alternate-selector synthesis for the decorated name "jakiTok_VAR03"
— under the Main variant the output is produced (no panic) and contains a
rule pairing glyph "jakiTok" with selector "VAR03" as well as the ordinal
word "three" (the selector table resolves "VAR03" to "three"); under the
UCSUR variant the ordinal-word rule is absent ("three" does not occur). -/
theorem alt_selector_var03_rules :
    (Lookups.gen Lookups.Alt "jakiTok" "jakiTok_VAR03"
      NasinNanpaVariation.Main).isOk = true ∧
    strContains
      ((Lookups.gen Lookups.Alt "jakiTok" "jakiTok_VAR03"
        NasinNanpaVariation.Main).toOption.getD "")
      "Ligature2: \"'liga' VAR\" jakiTok VAR03\n" = true ∧
    strContains
      ((Lookups.gen Lookups.Alt "jakiTok" "jakiTok_VAR03"
        NasinNanpaVariation.Main).toOption.getD "")
      "jakiTok three" = true ∧
    (selWord "VAR03").toOption = Option.some "three" ∧
    (Lookups.gen Lookups.Alt "jakiTok" "jakiTok_VAR03"
      NasinNanpaVariation.Ucsur).isOk = true ∧
    strContains
      ((Lookups.gen Lookups.Alt "jakiTok" "jakiTok_VAR03"
        NasinNanpaVariation.Ucsur).toOption.getD "")
      "three" = false := by
  refine ⟨by decide, by decide, by decide, by decide, by decide, by decide⟩

theorem selWord_not_mem (sel : String)
    (h : ¬ sel ∈ ["VAR01", "arrowW", "VAR02", "arrowN", "VAR03", "arrowE", "VAR04",
      "arrowS", "VAR05", "arrowNW", "VAR06", "arrowNE", "VAR07", "arrowSE", "VAR08",
      "arrowSW"]) :
    selWord sel = Except.error "explicit panic" := by
  simp [List.mem_cons, not_or] at h
  obtain ⟨h1, h2, h3, h4, h5, h6, h7, h8, h9, h10, h11, h12, h13, h14, h15, h16⟩ := h
  simp [selWord, rustPanic, h1, h2, h3, h4, h5, h6, h7, h8, h9, h10, h11, h12, h13,
    h14, h15, h16]

theorem convert_not_mem (c : Char) (h : ¬ c ∈ ['W', 'N', 'E', 'S']) :
    convert c = Except.error "explicit panic" := by
  simp [List.mem_cons, not_or] at h
  obtain ⟨h1, h2, h3, h4⟩ := h
  simp [convert, rustPanic, h1, h2, h3, h4]

theorem altGen_bad_selector (name full_name sel : String)
    (variation : NasinNanpaVariation)
    (h1 : (splitAll '_' [] full_name.data).get? 1 = Option.some sel)
    (h2 : selWord sel = Except.error "explicit panic") :
    Lookups.gen Lookups.Alt name full_name variation =
      Except.error "explicit panic" := by
  rw [List.get?_eq_getElem?] at h1
  have hv : rustVecGet (splitAll '_' [] full_name.data) 1 = Except.ok sel := by
    simp [rustVecGet, h1]
  cases variation <;>
    simp [Lookups.gen, altGen, hv, h2, Except.bind, bind]

theorem manual_arrow_bad_direction (name full_name : String) (c : Char)
    (h1 : name.data.get? 5 = Option.some c)
    (h2 : convert c = Except.error "explicit panic") :
    Lookups.gen (Lookups.WordLigManual "arrow") name full_name
      NasinNanpaVariation.Main = Except.error "explicit panic" := by
  by_cases hz : name = "ZWJ"
  · subst hz; simp at h1
  · rw [List.get?_eq_getElem?] at h1
    simp [Lookups.gen, manualGen, hz, h1, h2, rustUnwrap, Except.bind, bind,
      show strContains "arrow" "middleDotTok" = false from rfl,
      show strContains "arrow" "CartAlt" = false from rfl]

theorem manual_arrow_ucsur_ok (name full_name : String) :
    (Lookups.gen (Lookups.WordLigManual "arrow") name full_name
      NasinNanpaVariation.Ucsur).isOk = true := by
  simp [Lookups.gen, manualGen, Except.bind, bind, Except.isOk, Except.toBool]

/-- C9 counterexample: with the UCSUR variant, the arrow input "arrowQQ"
(both direction characters outside W/N/E/S) does NOT abort — rule synthesis
succeeds with empty output — and where the run does abort (Main variant) the
panic carries no message naming the offending glyph. -/
theorem arrow_direction_not_always_fatal :
    Lookups.gen (Lookups.WordLigManual "arrow") "arrowQQ" "arrowQQ"
      NasinNanpaVariation.Ucsur = Except.ok "" ∧
    Lookups.gen (Lookups.WordLigManual "arrow") "arrowQQ" "arrowQQ"
      NasinNanpaVariation.Main = Except.error "explicit panic" ∧
    strContains "explicit panic" "arrowQQ" = false := by
  refine ⟨by rfl, by rfl, by decide⟩

/-- C9 (amended): a selector suffix outside the closed 8-value enumeration
(VAR01..VAR08 / the eight compass names) aborts alternate-selector synthesis
under both variants with a bare panic whose message does not depend on the
offending name; an arrow direction character outside {W, N, E, S} aborts
under the Main variant only — under the UCSUR variant the direction is never
examined and manual-ligature synthesis succeeds. -/
theorem bad_enum_selector_aborts :
    (∀ (name full_name sel : String) (variation : NasinNanpaVariation),
      (splitAll '_' [] full_name.data).get? 1 = Option.some sel →
      ¬ sel ∈ ["VAR01", "arrowW", "VAR02", "arrowN", "VAR03", "arrowE", "VAR04",
        "arrowS", "VAR05", "arrowNW", "VAR06", "arrowNE", "VAR07", "arrowSE",
        "VAR08", "arrowSW"] →
      Lookups.gen Lookups.Alt name full_name variation =
        Except.error "explicit panic") ∧
    (∀ (name full_name : String) (c : Char),
      name.data.get? 5 = Option.some c → ¬ c ∈ ['W', 'N', 'E', 'S'] →
      Lookups.gen (Lookups.WordLigManual "arrow") name full_name
        NasinNanpaVariation.Main = Except.error "explicit panic") ∧
    (∀ (name full_name : String),
      (Lookups.gen (Lookups.WordLigManual "arrow") name full_name
        NasinNanpaVariation.Ucsur).isOk = true) := by
  refine ⟨?_, ?_, ?_⟩
  · intro name full_name sel variation h1 h2
    exact altGen_bad_selector name full_name sel variation h1 (selWord_not_mem sel h2)
  · intro name full_name c h1 h2
    exact manual_arrow_bad_direction name full_name c h1 (convert_not_mem c h2)
  · intro name full_name
    exact manual_arrow_ucsur_ok name full_name

/-- C9 (amended) witness: the selector "VAR99" aborts under UCSUR, the
direction 'Q' aborts under Main, and the same arrow input succeeds under
UCSUR. -/
theorem bad_enum_selector_aborts_witness :
    Lookups.gen Lookups.Alt "jakiTok" "jakiTok_VAR99" NasinNanpaVariation.Ucsur =
      Except.error "explicit panic" ∧
    Lookups.gen (Lookups.WordLigManual "arrow") "arrowQN" "arrowQN"
      NasinNanpaVariation.Main = Except.error "explicit panic" ∧
    (Lookups.gen (Lookups.WordLigManual "arrow") "arrowQN" "arrowQN"
      NasinNanpaVariation.Ucsur).isOk = true :=
  ⟨bad_enum_selector_aborts.1 "jakiTok" "jakiTok_VAR99" "VAR99"
      NasinNanpaVariation.Ucsur (by decide) (by decide),
   bad_enum_selector_aborts.2.1 "arrowQN" "arrowQN" 'Q' (by decide) (by decide),
   bad_enum_selector_aborts.2.2 "arrowQN" "arrowQN"⟩

theorem contig_nil (s : Nat) : contig [] s := by
  intro k h; simp at h

theorem contig_cons {g : GlyphFull} {l : List GlyphFull} {s : Nat}
    (h0 : g.encoding.ff_pos = s) (h1 : contig l (s + 1)) : contig (g :: l) s := by
  intro k hk
  cases k with
  | zero => simpa using h0
  | succ k' =>
      have hk' : k' < l.length := by simp at hk; omega
      have := h1 k' hk'
      simp only [List.get_cons_succ]
      rw [this]
      omega

theorem contig_cons_inv {g : GlyphFull} {l : List GlyphFull} {s : Nat}
    (h : contig (g :: l) s) : g.encoding.ff_pos = s ∧ contig l (s + 1) := by
  constructor
  · simpa using h 0 (by simp)
  · intro k hk
    have := h (k + 1) (by simp; omega)
    simp only [List.get_cons_succ] at this
    rw [this]
    omega

theorem contig_append : ∀ {xs ys : List GlyphFull} {s : Nat},
    contig xs s → contig ys (s + xs.length) → contig (xs ++ ys) s := by
  intro xs
  induction xs with
  | nil => intro ys s hx hy; simpa using hy
  | cons g l ih =>
      intro ys s hx hy
      obtain ⟨h0, h1⟩ := contig_cons_inv hx
      have hxy : s + (g :: l).length = s + 1 + l.length := by simp; omega
      have hy' : contig ys (s + 1 + l.length) := by rw [← hxy]; exact hy
      exact contig_cons h0 (ih h1 hy')

theorem layoutBasic_contig (m : LookupsMode) (cc : Cc) :
    ∀ (gs : List GlyphBasic) (ff : Nat) (e : EncPos) (i : Nat),
      contig (layoutBasic m cc ff e i gs).1 ff := by
  intro gs
  induction gs with
  | nil => intro ff e i; exact contig_nil ff
  | cons g rest ih =>
      intro ff e i
      exact contig_cons rfl (ih (ff + 1) e.inc (i + 1))

theorem layoutEnc_contig (m : LookupsMode) (cc : Cc) :
    ∀ (gs : List GlyphEnc) (ff : Nat) (i : Nat),
      contig (layoutEnc m cc ff i gs).1 ff := by
  intro gs
  induction gs with
  | nil => intro ff i; exact contig_nil ff
  | cons g rest ih =>
      intro ff i
      exact contig_cons rfl (ih (ff + 1) (i + 1))

theorem new_empty_contig (ff n w : Nat) :
    contig (GlyphBlock.new_empty ff n w).1.glyphs ff := by
  intro k h
  rw [List.get_eq_getElem]
  simp only [GlyphBlock.new_empty, List.getElem_map, List.getElem_range]

theorem new_from_basic_glyphs_contig (ff : Nat) (gs : List GlyphBasic)
    (m : LookupsMode) (cc : Cc) (pre suffix color : String) (e : EncPos) :
    contig (GlyphBlock.new_from_basic_glyphs ff gs m cc pre suffix color e).1.glyphs ff ∧
    (GlyphBlock.new_from_basic_glyphs ff gs m cc pre suffix color e).2 =
      ff + (GlyphBlock.new_from_basic_glyphs ff gs m cc pre suffix color e).1.glyphs.length := by
  constructor
  · simp only [GlyphBlock.new_from_basic_glyphs]
    apply contig_append (layoutBasic_contig m cc gs ff e 0)
    rw [layoutBasic_counter m cc gs ff e 0, layoutBasic_fst_length m cc gs ff e 0]
    exact new_empty_contig (ff + gs.length) _ 0
  · rw [new_from_basic_glyphs_length]
    show (GlyphBlock.new_empty (layoutBasic m cc ff e 0 gs).2.1
      (15 - (((layoutBasic m cc ff e 0 gs).1.length + 15) % 16)) 0).2 = _
    simp only [GlyphBlock.new_empty, layoutBasic_counter m cc gs ff e 0,
      layoutBasic_fst_length m cc gs ff e 0]
    omega

theorem new_from_enc_glyphs_contig (ff : Nat) (gs : List GlyphEnc)
    (m : LookupsMode) (cc : Cc) (pre suffix color : String) :
    contig (GlyphBlock.new_from_enc_glyphs ff gs m cc pre suffix color).1.glyphs ff ∧
    (GlyphBlock.new_from_enc_glyphs ff gs m cc pre suffix color).2 =
      ff + (GlyphBlock.new_from_enc_glyphs ff gs m cc pre suffix color).1.glyphs.length := by
  constructor
  · simp only [GlyphBlock.new_from_enc_glyphs]
    apply contig_append (layoutEnc_contig m cc gs ff 0)
    rw [layoutEnc_counter m cc gs ff 0, layoutEnc_fst_length m cc gs ff 0]
    exact new_empty_contig (ff + gs.length) _ 0
  · rw [new_from_enc_glyphs_length]
    show (GlyphBlock.new_empty (layoutEnc m cc ff 0 gs).2
      (15 - (((layoutEnc m cc ff 0 gs).1.length + 15) % 16)) 0).2 = _
    simp only [GlyphBlock.new_empty, layoutEnc_counter m cc gs ff 0,
      layoutEnc_fst_length m cc gs ff 0]
    omega

theorem new_empty_block_contig (ff n w : Nat) :
    contig (GlyphBlock.new_empty ff n w).1.glyphs ff ∧
    (GlyphBlock.new_empty ff n w).2 =
      ff + (GlyphBlock.new_empty ff n w).1.glyphs.length := by
  exact ⟨new_empty_contig ff n w, by simp [GlyphBlock.new_empty]⟩

theorem buildStep_contig (built : List GlyphBlock) (ff : Nat) (s : BlockSpec) :
    contig (buildStep built ff s).1.glyphs ff ∧
    (buildStep built ff s).2 = ff + (buildStep built ff s).1.glyphs.length := by
  cases s with
  | fromEnc g l c p sf col => exact new_from_enc_glyphs_contig ff g l c p sf col
  | fromBasic g l c p sf col e => exact new_from_basic_glyphs_contig ff g l c p sf col e
  | fromConstants g l c p sf col e w =>
      exact new_from_basic_glyphs_contig ff _ l c p sf col e
  | fromRefs i rel l c u p sf col w a =>
      exact new_from_basic_glyphs_contig ff _ l c p sf col EncPos.None
  | empty n w => exact new_empty_block_contig ff n w

theorem allGlyphs_append_single (built : List GlyphBlock) (b : GlyphBlock) :
    allGlyphs (built ++ [b]) = allGlyphs built ++ b.glyphs := by
  simp [allGlyphs]

theorem buildRun_contig : ∀ (specs : List BlockSpec) (built : List GlyphBlock) (ff : Nat),
    contig (allGlyphs built) 0 → ff = (allGlyphs built).length →
    contig (allGlyphs (buildRun ff built specs).1) 0 ∧
    (buildRun ff built specs).2 = (allGlyphs (buildRun ff built specs).1).length := by
  intro specs
  induction specs with
  | nil =>
      intro built ff h1 h2
      exact ⟨h1, h2⟩
  | cons s rest ih =>
      intro built ff h1 h2
      simp only [buildRun]
      apply ih
      · rw [allGlyphs_append_single]
        apply contig_append h1
        rw [← h2]
        simpa using (buildStep_contig built ff s).1
      · rw [allGlyphs_append_single, List.length_append, ← h2]
        exact (buildStep_contig built ff s).2

/-- C3: across a whole document-generation run (any sequence of block
constructions in declaration order, counter starting at 0), the internal
positions are contiguous and strictly increasing — the k-th emitted glyph
record carries internal position k — and the final counter equals the total
glyph count, the value declared (twice) in the BeginChars header line. -/
theorem run_positions_contiguous (specs : List BlockSpec) :
    (∀ k (h : k < (allGlyphs (buildRun 0 [] specs).1).length),
      ((allGlyphs (buildRun 0 [] specs).1).get ⟨k, h⟩).encoding.ff_pos = k) ∧
    (buildRun 0 [] specs).2 = (allGlyphs (buildRun 0 [] specs).1).length ∧
    beginCharsLine (buildRun 0 [] specs).2 =
      "BeginChars: " ++ toString (allGlyphs (buildRun 0 [] specs).1).length ++ " " ++
        toString (allGlyphs (buildRun 0 [] specs).1).length := by
  have h := buildRun_contig specs [] 0 (contig_nil 0) (by simp [allGlyphs])
  refine ⟨fun k hk => by simpa using h.1 k hk, h.2, ?_⟩
  rw [h.2]
  rfl

/-- C3 witness: glyph 1 of a run consisting of one three-glyph empty block
carries internal position 1. -/
theorem run_positions_contiguous_witness :
    ((allGlyphs (buildRun 0 [] [BlockSpec.empty 3 0]).1).get ⟨1, by decide⟩).encoding.ff_pos = 1 :=
  (run_positions_contiguous [BlockSpec.empty 3 0]).1 1 (by decide)

theorem filterMap_decorate (P : GlyphFull → Bool) (dec : String → String)
    (gs : List GlyphFull) :
    gs.filterMap (fun g => if P g then Option.none
      else Option.some (dec g.glyph.name)) =
      (gs.filterMap (fun g => if P g then Option.none
        else Option.some g.glyph.name)).map dec := by
  induction gs with
  | nil => rfl
  | cons g rest ih => by_cases h : P g = true <;> simp [h, ih]

/-- C6: a glyph name in the scale set (collected, undecorated, from the
outer blocks) never appears among the names selected for the stack class
body, even when a glyph of the same name occurs in a lower-family block —
the exclusion test is set membership on the undecorated name — and the
"Tok" decoration (applied only to non-terminal blocks, index different from
2) is applied to the emitted entries only after that exclusion. -/
theorem scale_excluded_from_stack (outers lowers : List GlyphBlock) :
    (∀ s, s ∈ scaleGlyphSet outers →
      ∀ l, l ∈ stackSelected (scaleGlyphSet outers) lowers → ¬ s ∈ l) ∧
    stackEntries (scaleGlyphSet outers) lowers =
      (stackSelected (scaleGlyphSet outers) lowers).enum.map
        (fun q => q.2.map (fun n => n ++ (if q.1 != 2 then "Tok" else ""))) := by
  constructor
  · intro s hs l hl hmem
    obtain ⟨blk, hblk, rfl⟩ := List.mem_map.mp hl
    obtain ⟨g, hg, hfg⟩ := List.mem_filterMap.mp hmem
    simp at hfg
    obtain ⟨⟨_, hnot⟩, heq⟩ := hfg
    exact hnot (by rw [heq]; exact hs)
  · rw [show stackSelected (scaleGlyphSet outers) lowers = lowers.map (fun block =>
      block.glyphs.filterMap (fun glyph =>
        if strContains glyph.glyph.name "empty" || strContains glyph.glyph.name "arrow" ||
            (scaleGlyphSet outers).contains glyph.glyph.name then Option.none
        else Option.some glyph.glyph.name)) from rfl]
    rw [List.enum_map]
    simp only [stackEntries, List.map_map]
    apply List.map_congr_left
    intro p hp
    simp only [Function.comp, Prod.map, id_eq]
    exact filterMap_decorate
      (fun g => strContains g.glyph.name "empty" || strContains g.glyph.name "arrow" ||
        (scaleGlyphSet outers).contains g.glyph.name)
      (fun n => n ++ (if p.1 != 2 then "Tok" else "")) p.2.glyphs

/-- C6 witness: with an outer block holding glyph "ko" and a lower block
holding glyphs "ko" and "mi", only "mi" is selected for the stack class,
and "ko" is not among the selected names. -/
theorem scale_excluded_from_stack_witness :
    ¬ ("ko" : String) ∈ (["mi"] : List String) :=
  (scale_excluded_from_stack
    [{ glyphs := [namedGlyph "ko"], pre := "", suffix := "Tok", color := "c" }]
    [{ glyphs := [namedGlyph "ko", namedGlyph "mi"], pre := "", suffix := "Tok",
       color := "c" }]).1
    "ko" (by decide) ["mi"] (by decide)

end NasinNanpa
